import Mathlib

/-!
Verification of the collectd MongoDB plugin (`mongodb.py`).

The plugin's core is a schema-driven traversal: dictionary literals
(`SERVER_STATUS_METRICS`, `CONNECTION_POOL_STATUS_METRICS`, `DBSTATS_METRICS`)
describe which nested fields of a MongoDB command response map to which
collectd type, and `recursive_submit` walks a schema tree against a live
response document, dispatching one collectd value per matched scalar leaf.

The embedding below models Python dictionaries as association lists
(insertion-ordered, keys unique in the literals we transcribe), Python
exceptions as an `Except PyErr` result, and the stream of `collectd` calls
(dispatches and diagnostic prints) as a list of events.
-/

set_option autoImplicit false

namespace MongoDBPlugin

/-- A JSON-like value in a MongoDB command response document
(`data_tree` in the source): a scalar (number or string) or a nested
document.  Arrays do not occur in the fields the schemas touch. -/
inductive Value where
  | vInt (n : Int) : Value
  | vStr (s : String) : Value
  | vDoc (fields : List (String × Value)) : Value
deriving Repr

/-- A schema node (`type_tree` in the source): either a leaf holding the
collectd type string (for example "gauge" or "derive"), or a nested
dictionary of child schema nodes. -/
inductive TypeTree where
  | leaf (ty : String) : TypeTree
  | branch (children : List (String × TypeTree)) : TypeTree
deriving Repr

/-- A Python exception class, as far as this plugin can raise one. -/
inductive PyErr where
  | typeError : PyErr
  | keyError : PyErr
  | valueError : PyErr
  | connectionError : PyErr
deriving Repr, DecidableEq

/-- Dictionary lookup `d[k]` / `d.get(k)` on an association list. -/
def lookupKey {α : Type} (l : List (String × α)) (k : String) : Option α :=
  match l with
  | [] => none
  | (k', v) :: rest => if k' = k then some v else lookupKey rest k

/-- Python `d.has_key(k)`. -/
def hasKey {α : Type} (l : List (String × α)) (k : String) : Bool :=
  (lookupKey l k).isSome

/-- Python `d.pop(k)`/`del`: drop the binding for `k`. -/
def removeKey {α : Type} (l : List (String × α)) (k : String) : List (String × α) :=
  l.filter (fun p => p.1 ≠ k)

/-- Python `d[k] = v`: overwrite in place if `k` is bound, else append
(new keys go at the end, matching insertion order). -/
def setKey {α : Type} (l : List (String × α)) (k : String) (v : α) : List (String × α) :=
  match l with
  | [] => [(k, v)]
  | (k', v') :: rest => if k' = k then (k, v) :: rest else (k', v') :: setKey rest k v

/-- The keys of a dictionary, in insertion order. -/
def keysOf {α : Type} (l : List (String × α)) : List String :=
  l.map Prod.fst

/-- `CONNECTION_POOL_STATUS_METRICS` from the source, transcribed verbatim. -/
def CONNECTION_POOL_STATUS_METRICS : List (String × TypeTree) :=
  [ ("createdByType", .branch
      [ ("master", .leaf "total_connections")
      , ("set", .leaf "total_connections")
      , ("sync", .leaf "total_connections") ])
  , ("totalAvailable", .leaf "gauge")
  , ("totalCreated", .leaf "total_connections")
  , ("numDBClientConnection", .leaf "gauge")
  , ("numAScopedConnection", .leaf "gauge") ]

/-- `DBSTATS_METRICS` from the source, transcribed verbatim. -/
def DBSTATS_METRICS : List (String × TypeTree) :=
  [ ("collections", .leaf "gauge")
  , ("objects", .leaf "gauge")
  , ("avgObjSize", .leaf "bytes")
  , ("dataSize", .leaf "bytes")
  , ("storageSize", .leaf "bytes")
  , ("numExtents", .leaf "gauge")
  , ("indexes", .leaf "gauge")
  , ("indexSize", .leaf "bytes")
  , ("fileSize", .leaf "bytes")
  , ("nsSizeMB", .leaf "gauge") ]

/-- `SERVER_STATUS_METRICS` from the source, transcribed verbatim. -/
def SERVER_STATUS_METRICS : List (String × TypeTree) :=
  [ ("backgroundFlushing", .branch [ ("last_ms", .leaf "gauge") ])
  , ("connections", .branch
      [ ("current", .leaf "gauge")
      , ("available", .leaf "gauge") ])
  , ("cursors", .branch
      [ ("totalOpen", .leaf "gauge")
      , ("timedout", .leaf "derive") ])
  , ("globalLock", .branch
      [ ("currentQueue", .branch
          [ ("total", .leaf "gauge")
          , ("readers", .leaf "gauge")
          , ("writers", .leaf "gauge") ])
      , ("activeClients", .branch
          [ ("total", .leaf "gauge")
          , ("readers", .leaf "gauge")
          , ("writers", .leaf "gauge") ]) ])
  , ("indexCounters", .branch
      [ ("accesses", .leaf "derive")
      , ("hits", .leaf "derive")
      , ("misses", .leaf "derive") ])
  , ("locks", .branch
      [ (".", .branch
          [ ("timeLockedMicros", .branch
              [ ("R", .leaf "derive")
              , ("W", .leaf "derive") ])
          , ("timeAcquiringMicros", .branch
              [ ("R", .leaf "derive")
              , ("W", .leaf "derive") ]) ]) ])
  , ("opcounters", .branch
      [ ("insert", .leaf "derive")
      , ("query", .leaf "derive")
      , ("update", .leaf "derive")
      , ("delete", .leaf "derive")
      , ("getmore", .leaf "derive")
      , ("command", .leaf "derive") ])
  , ("recordStats", .branch
      [ ("accessesNotInMemory", .leaf "derive")
      , ("pageFaultExceptionsThrown", .leaf "derive") ])
  , ("mem", .branch
      [ ("bits", .leaf "gauge")
      , ("resident", .leaf "gauge")
      , ("virtual", .leaf "gauge")
      , ("mapped", .leaf "gauge")
      , ("mappedWithJournal", .leaf "gauge") ])
  , ("metrics", .branch
      [ ("document", .branch
          [ ("deleted", .leaf "derive")
          , ("inserted", .leaf "derive")
          , ("returned", .leaf "derive")
          , ("updated", .leaf "derive") ]) ]) ]

mutual

def Value.decEq : (a b : Value) → Decidable (a = b)
  | .vInt a, .vInt b =>
      if h : a = b then .isTrue (by rw [h]) else .isFalse (by simp [h])
  | .vInt _, .vStr _ => .isFalse (by simp)
  | .vInt _, .vDoc _ => .isFalse (by simp)
  | .vStr _, .vInt _ => .isFalse (by simp)
  | .vStr a, .vStr b =>
      if h : a = b then .isTrue (by rw [h]) else .isFalse (by simp [h])
  | .vStr _, .vDoc _ => .isFalse (by simp)
  | .vDoc _, .vInt _ => .isFalse (by simp)
  | .vDoc _, .vStr _ => .isFalse (by simp)
  | .vDoc a, .vDoc b =>
      match Value.decEqList a b with
      | .isTrue h => .isTrue (by rw [h])
      | .isFalse h => .isFalse (by simpa using h)

def Value.decEqList : (a b : List (String × Value)) → Decidable (a = b)
  | [], [] => .isTrue rfl
  | [], _ :: _ => .isFalse (by simp)
  | _ :: _, [] => .isFalse (by simp)
  | (k, v) :: as, (k2, v2) :: bs =>
      if hk : k = k2 then
        match Value.decEq v v2, Value.decEqList as bs with
        | .isTrue h1, .isTrue h2 => .isTrue (by rw [hk, h1, h2])
        | .isFalse h1, _ => .isFalse (by simp [h1])
        | _, .isFalse h2 => .isFalse (by simp [h2])
      else .isFalse (by simp [hk])

end

instance : DecidableEq Value := Value.decEq

mutual

def TypeTree.decEq : (a b : TypeTree) → Decidable (a = b)
  | .leaf a, .leaf b =>
      if h : a = b then .isTrue (by rw [h]) else .isFalse (by simp [h])
  | .leaf _, .branch _ => .isFalse (by simp)
  | .branch _, .leaf _ => .isFalse (by simp)
  | .branch a, .branch b =>
      match TypeTree.decEqList a b with
      | .isTrue h => .isTrue (by rw [h])
      | .isFalse h => .isFalse (by simpa using h)

def TypeTree.decEqList : (a b : List (String × TypeTree)) → Decidable (a = b)
  | [], [] => .isTrue rfl
  | [], _ :: _ => .isFalse (by simp)
  | _ :: _, [] => .isFalse (by simp)
  | (k, v) :: as, (k2, v2) :: bs =>
      if hk : k = k2 then
        match TypeTree.decEq v v2, TypeTree.decEqList as bs with
        | .isTrue h1, .isTrue h2 => .isTrue (by rw [hk, h1, h2])
        | .isFalse h1, _ => .isFalse (by simp [h1])
        | _, .isFalse h2 => .isFalse (by simp [h2])
      else .isFalse (by simp [hk])

end

instance : DecidableEq TypeTree := TypeTree.decEq

/-! ## `distutils.version.StrictVersion`

The source compares the detected server version with
`V(version) >= V("2.4.0")` where `V` is `distutils.version.StrictVersion`.
`StrictVersion` parses `major.minor[.patch][ab]N` (each component numeric,
patch defaulting to 0) and raises `ValueError` on anything else; comparison
is lexicographic on the numeric triple, with a pre-release sorting below
the corresponding release. -/

/-- `int(...)` on a non-empty digit string. -/
def digitsToNat (cs : List Char) : Nat :=
  cs.foldl (fun n c => n * 10 + (c.toNat - 48)) 0

structure StrictVersion where
  major : Nat
  minor : Nat
  patch : Nat
  prerelease : Option (Char × Nat)
deriving Repr, DecidableEq

/-- Parse the optional `[ab]N` pre-release tail; the whole string must be
consumed (the regex is anchored at both ends). -/
def parsePrereleaseTail (major minor patch : Nat) (rest : List Char) : Option StrictVersion :=
  match rest with
  | [] => some ⟨major, minor, patch, none⟩
  | c :: r =>
      if c = 'a' ∨ c = 'b' then
        let (d, r') := r.span Char.isDigit
        if d = [] ∨ r' ≠ [] then none
        else some ⟨major, minor, patch, some (c, digitsToNat d)⟩
      else none

/-- `StrictVersion(s)`: `none` models the `ValueError` raised on a string
that does not match `^\d+\.\d+(\.\d+)?([ab]\d+)?$`. -/
def parseStrictVersion (s : String) : Option StrictVersion :=
  let cs := s.toList
  let (d1, r1) := cs.span Char.isDigit
  if d1 = [] then none
  else
    match r1 with
    | '.' :: r1' =>
        let (d2, r2) := r1'.span Char.isDigit
        if d2 = [] then none
        else
          match r2 with
          | '.' :: r2' =>
              let (d3, r3) := r2'.span Char.isDigit
              if d3 = [] then none
              else parsePrereleaseTail (digitsToNat d1) (digitsToNat d2) (digitsToNat d3) r3
          | _ => parsePrereleaseTail (digitsToNat d1) (digitsToNat d2) 0 r2
    | _ => none

/-- `StrictVersion.__cmp__`: lexicographic on (major, minor, patch); on a
tie, a pre-release sorts below the plain release, and two pre-releases
compare lexicographically on (letter, number). -/
def StrictVersion.cmp (a b : StrictVersion) : Ordering :=
  match compare a.major b.major with
  | .lt => .lt
  | .gt => .gt
  | .eq =>
      match compare a.minor b.minor with
      | .lt => .lt
      | .gt => .gt
      | .eq =>
          match compare a.patch b.patch with
          | .lt => .lt
          | .gt => .gt
          | .eq =>
              match a.prerelease, b.prerelease with
              | none, none => .eq
              | some _, none => .lt
              | none, some _ => .gt
              | some (c1, n1), some (c2, n2) =>
                  match compare c1 c2 with
                  | .lt => .lt
                  | .gt => .gt
                  | .eq => compare n1 n2

/-- `V(a) >= V(b)`. -/
def StrictVersion.ge (a b : StrictVersion) : Bool :=
  match StrictVersion.cmp a b with
  | .lt => false
  | _ => true

/-- `V("2.4.0")`, the threshold constant in `MongoDB.connect`. -/
def v240 : StrictVersion := ⟨2, 4, 0, none⟩

/-- The version-conditioning step of `MongoDB.connect` (lines 140-145),
with the mutation of the global `SERVER_STATUS_METRICS` made explicit:
`g` is the global schema before the call and the result is the global
after it.  `server_status` is the response of the `serverStatus` command.
Failure modes, in evaluation order: `server_status["version"]` raises
`KeyError` when the key is absent; `V(version)` raises `TypeError` on a
non-string and `ValueError` on a malformed version string; the `pop`
raises `KeyError` if `indexCounters` is absent from the global. -/
def connect_version_sub (g : List (String × TypeTree)) (server_status : List (String × Value)) :
    Except PyErr (List (String × TypeTree)) :=
  match lookupKey server_status "version" with
  | none => .error .keyError
  | some (.vStr version) =>
      match parseStrictVersion version with
      | none => .error .valueError
      | some pv =>
          if StrictVersion.ge pv v240 then .ok g
          else
            match lookupKey g "indexCounters" with
            | none => .error .keyError
            | some indexCountersMap =>
                .ok (setKey (removeKey g "indexCounters") "indexCounters"
                      (.branch [("btree", indexCountersMap)]))
  | some _ => .error .typeError

/-- One `collectd.Values` dispatch, with the fields `MongoDB.submit`
sets on it. -/
structure MetricRecord where
  plugin : String
  plugin_instance : String
  type : String
  type_instance : Option String
  value : Value
deriving Repr, DecidableEq

/-- An observable effect of a publishing run: a dispatched value or the
diagnostic `print` emitted on a schema/document shape mismatch. -/
inductive Event where
  | dispatched (r : MetricRecord) : Event
  | diag (msg : String) : Event
deriving Repr, DecidableEq

/-- Python truthiness of an optional string (`if db:` / `if instance_name:`):
`None` and the empty string are falsy. -/
def pyTruthy : Option String → Bool
  | none => false
  | some s => s ≠ ""

/-- `MongoDB.submit` (lines 175-188).  When `db` is truthy the source
formats `plugin_instance = "%s-%d" % (self.mongo_port, db)`; `%d` applied
to a string raises `TypeError`, so no value is dispatched on that path.
Otherwise `plugin_instance = str(self.mongo_port)` and the value is
dispatched. -/
def MongoDB.submit (port : Nat) (instance_name : Option String) (type_name : String)
    (value : Value) (db : Option String) : Except PyErr MetricRecord :=
  if pyTruthy db then .error .typeError
  else .ok ⟨"mongo", toString port, type_name, instance_name, value⟩

/-- `instance_name + "." + type_name` when `instance_name` is truthy,
else `type_name` (lines 195-199). -/
def next_instance_name (instance_name : Option String) (type_name : String) : String :=
  match instance_name with
  | some s => if s = "" then type_name else s ++ "." ++ type_name
  | none => type_name

/-- The diagnostic printed on a shape mismatch (line 206).  Evaluating
`"..." + instance_name` with `instance_name = None` raises `TypeError`,
which the caller of the model handles via `Except`. -/
def mismatch_msg (s : String) : String :=
  "type tree and data tree structure differ for data instance: " ++ s

mutual

/-- `MongoDB.recursive_submit` (lines 191-208).  Note that the recursive
call on line 201 passes only `(type_value, data_tree[type_name],
next_instance_name)`: the `db` argument is NOT forwarded and so reverts to
its default `None` below the top-level call. -/
def recursive_submit (port : Nat) (type_tree : TypeTree) (data_tree : Value)
    (instance_name : Option String) (db : Option String) : Except PyErr (List Event) :=
  match type_tree, data_tree with
  | .branch m, .vDoc d => recursive_submit_items port m d instance_name
  | .branch _, _ =>
      match instance_name with
      | none => .error .typeError
      | some s => .ok [.diag (mismatch_msg s)]
  | .leaf _, .vDoc _ =>
      match instance_name with
      | none => .error .typeError
      | some s => .ok [.diag (mismatch_msg s)]
  | .leaf ty, v =>
      match MongoDB.submit port instance_name ty v db with
      | .error e => .error e
      | .ok r => .ok [.dispatched r]

/-- The `for type_name, type_value in type_tree.iteritems()` loop of
`recursive_submit`, for the case where both trees are dictionaries.
Keys absent from the data tree are skipped silently (lines 200-204). -/
def recursive_submit_items (port : Nat) (items : List (String × TypeTree))
    (d : List (String × Value)) (instance_name : Option String) : Except PyErr (List Event) :=
  match items with
  | [] => .ok []
  | (type_name, type_value) :: rest =>
      match lookupKey d type_name with
      | some dv =>
          match recursive_submit port type_value dv (some (next_instance_name instance_name type_name)) none with
          | .error e => .error e
          | .ok evs =>
              match recursive_submit_items port rest d instance_name with
              | .error e => .error e
              | .ok evs2 => .ok (evs ++ evs2)
      | none => recursive_submit_items port rest d instance_name

end

/-- The inclusion-filter loop shared by the three publishers
(lines 218-224, 236-242, 254-258): for each key of the configured filter,
if the live response document has that key, copy the base schema's branch
for it into `metrics_to_collect`.  `base[root_metric_key]` is unguarded:
a filter key present in the document but absent from the base schema
raises `KeyError`. -/
def filter_loop (base : List (String × TypeTree)) (doc : List (String × Value)) :
    List String → List (String × TypeTree) → Except PyErr (List (String × TypeTree))
  | [], acc => .ok acc
  | k :: ks, acc =>
      if hasKey doc k then
        match lookupKey base k with
        | some tv => filter_loop base doc ks (setKey acc k tv)
        | none => .error .keyError
      else filter_loop base doc ks acc

/-- `metrics_to_collect` construction: when the configured filter is
truthy (a non-empty collection) run the filter loop starting from `{}`,
otherwise use the whole base schema. -/
def metrics_to_collect (inc : Option (List String)) (base : List (String × TypeTree))
    (doc : List (String × Value)) : Except PyErr (List (String × TypeTree)) :=
  match inc with
  | some l => if l = [] then .ok base else filter_loop base doc l []
  | none => .ok base

/-- The schema-resolution part of `publish_server_status` (lines 254-269),
given the base schema `base` (the global `SERVER_STATUS_METRICS`), the
configured filter, the fetched `serverStatus` document and the configured
database list: build `metrics_to_collect`, rename the `"."` lock branch to
`"GLOBAL"`, then inject one deep copy of `base["locks"]["."]` per
configured database name.  `metrics_to_collect["locks"]` (line 262) is an
unguarded subscript: `KeyError` when `locks` was filtered out. -/
def resolve_server_status (base : List (String × TypeTree)) (inc : Option (List String))
    (server_status : List (String × Value)) (dbs : List String) :
    Except PyErr (List (String × TypeTree)) :=
  match metrics_to_collect inc base server_status with
  | .error e => .error e
  | .ok m0 =>
      match lookupKey m0 "locks" with
      | none => .error .keyError
      | some (.leaf _) => .error .typeError
      | some (.branch lm) =>
          let lm1 := match lookupKey lm "." with
            | some global_lock_data => setKey (removeKey lm ".") "GLOBAL" global_lock_data
            | none => lm
          if dbs.isEmpty then .ok (setKey m0 "locks" (.branch lm1))
          else
            match lookupKey base "locks" with
            | none => .error .keyError
            | some (.leaf _) => .error .typeError
            | some (.branch blm) =>
                match lookupKey blm "." with
                | none => .error .keyError
                | some dot =>
                    .ok (setKey m0 "locks"
                          (.branch (dbs.foldl (fun acc db_name => setKey acc db_name dot) lm1)))

/-- `MongoDB.publish_server_status` (lines 247-271): fetch `serverStatus`
(the external call's outcome is the `fetch` argument), resolve the
effective schema, walk it.  The top-level `recursive_submit` call passes
no `db`. -/
def publish_server_status (port : Nat) (base : List (String × TypeTree))
    (inc : Option (List String)) (dbs : List String)
    (fetch : Except PyErr (List (String × Value))) : Except PyErr (List Event) :=
  match fetch with
  | .error e => .error e
  | .ok server_status =>
      match resolve_server_status base inc server_status dbs with
      | .error e => .error e
      | .ok m => recursive_submit port (.branch m) (.vDoc server_status) none none

/-- `MongoDB.publish_connection_pool_metrics` (lines 211-226). -/
def publish_connection_pool_metrics (port : Nat) (inc : Option (List String))
    (fetch : Except PyErr (List (String × Value))) : Except PyErr (List Event) :=
  match fetch with
  | .error e => .error e
  | .ok conn_pool_stats =>
      match metrics_to_collect inc CONNECTION_POOL_STATUS_METRICS conn_pool_stats with
      | .error e => .error e
      | .ok m => recursive_submit port (.branch m) (.vDoc conn_pool_stats) none none

/-- `MongoDB.publish_dbstats` (lines 229-244): for each configured
database, fetch its `dbStats` document, build `metrics_to_collect`, and
walk it with `db=db_name` passed to the top-level `recursive_submit`. -/
def publish_dbstats (port : Nat) (inc : Option (List String))
    (fetches : List (String × Except PyErr (List (String × Value)))) : Except PyErr (List Event) :=
  match fetches with
  | [] => .ok []
  | (db_name, fetch) :: rest =>
      match fetch with
      | .error e => .error e
      | .ok dbstats =>
          match metrics_to_collect inc DBSTATS_METRICS dbstats with
          | .error e => .error e
          | .ok m =>
              match recursive_submit port (.branch m) (.vDoc dbstats) none (some db_name) with
              | .error e => .error e
              | .ok evs =>
                  match publish_dbstats port inc rest with
                  | .error e => .error e
                  | .ok evs2 => .ok (evs ++ evs2)

/-- `MongoDB.publish_data` (lines 274-277) runs the three steps in order
with no exception handling: an uncaught exception in one step aborts the
rest of the cycle.  The result pairs the events actually emitted (each
step's dispatches are flushed before the next step starts) with the
exception, if any, that escaped to the caller. -/
def publish_data (step1 step2 step3 : Except PyErr (List Event)) : List Event × Option PyErr :=
  match step1 with
  | .error e => ([], some e)
  | .ok r1 =>
      match step2 with
      | .error e => (r1, some e)
      | .ok r2 =>
          match step3 with
          | .error e => (r1 ++ r2, some e)
          | .ok r3 => (r1 ++ r2 ++ r3, none)

/-- One full polling cycle wired to the three publishers, parameterized by
the outcomes of the external fetches. -/
def publish_data_run (port : Nat) (base : List (String × TypeTree))
    (incSS incCP incDB : Option (List String)) (dbs : List String)
    (fetchSS fetchCP : Except PyErr (List (String × Value)))
    (fetchDBs : List (String × Except PyErr (List (String × Value)))) :
    List Event × Option PyErr :=
  publish_data
    (publish_server_status port base incSS dbs fetchSS)
    (publish_connection_pool_metrics port incCP fetchCP)
    (publish_dbstats port incDB fetchDBs)

/-! ## Derived constants and observation helpers used in theorem statements -/

/-- The `indexCounters` sub-tree of the base server-status schema. -/
def indexCountersMap : TypeTree :=
  .branch [ ("accesses", .leaf "derive")
          , ("hits", .leaf "derive")
          , ("misses", .leaf "derive") ]

/-- The global `SERVER_STATUS_METRICS` after `connect` ran against a
pre-2.4 server: `indexCounters` popped and re-inserted nested under
`btree` (lines 144-145). -/
def SERVER_STATUS_METRICS_pre24 : List (String × TypeTree) :=
  setKey (removeKey SERVER_STATUS_METRICS "indexCounters") "indexCounters"
    (.branch [("btree", indexCountersMap)])

/-- The sub-tree under the `"."` placeholder of `SERVER_STATUS_METRICS["locks"]`. -/
def lock_placeholder_subtree : TypeTree :=
  .branch [ ("timeLockedMicros", .branch [ ("R", .leaf "derive"), ("W", .leaf "derive") ])
          , ("timeAcquiringMicros", .branch [ ("R", .leaf "derive"), ("W", .leaf "derive") ]) ]

/-- Did the computation finish without raising? -/
def exceptIsOk {ε α : Type} : Except ε α → Bool
  | .ok _ => true
  | .error _ => false

/-- Is this document value map-like (a nested document)? -/
def Value.isDocB : Value → Bool
  | .vDoc _ => true
  | _ => false

/-- Is this schema node a branch (a dictionary of children)? -/
def TypeTree.isBranchB : TypeTree → Bool
  | .branch _ => true
  | .leaf _ => false

/-- The children of the `locks` branch of an effective schema, if present. -/
def locksBranchOf (m : List (String × TypeTree)) : Option (List (String × TypeTree)) :=
  match lookupKey m "locks" with
  | some (.branch l) => some l
  | _ => none

mutual

/-- Does the key `k` occur anywhere in this schema tree (at any depth)? -/
def TypeTree.hasKeyDeep (k : String) : TypeTree → Bool
  | .leaf _ => false
  | .branch l => TypeTree.hasKeyDeepList k l

def TypeTree.hasKeyDeepList (k : String) : List (String × TypeTree) → Bool
  | [] => false
  | (k', t) :: rest =>
      k' = k || TypeTree.hasKeyDeep k t || TypeTree.hasKeyDeepList k rest

end

/-! ## Helper lemmas about dictionary operations and the filter loop -/

theorem lookupKey_mem_keysOf {α : Type} {l : List (String × α)} {k : String} {v : α}
    (h : lookupKey l k = some v) : k ∈ keysOf l := by
  induction l with
  | nil => simp [lookupKey] at h
  | cons p rest ih =>
      obtain ⟨k', v'⟩ := p
      by_cases hk : k' = k
      · subst hk; simp [keysOf]
      · simp only [lookupKey, if_neg hk] at h
        simpa [keysOf] using Or.inr (ih h)

theorem mem_keysOf_exists_lookup {α : Type} {l : List (String × α)} {k : String}
    (h : k ∈ keysOf l) : ∃ v, lookupKey l k = some v := by
  induction l with
  | nil => simp [keysOf] at h
  | cons p rest ih =>
      obtain ⟨k', v'⟩ := p
      by_cases hk : k' = k
      · exact ⟨v', by simp [lookupKey, hk]⟩
      · simp only [keysOf, List.map_cons, List.mem_cons] at h
        rcases h with h | h
        · exact absurd h.symm hk
        · obtain ⟨v, hv⟩ := ih h
          exact ⟨v, by simp [lookupKey, hk, hv]⟩

theorem keysOf_setKey_cases {α : Type} {l : List (String × α)} {k k' : String} {v : α}
    (h : k' ∈ keysOf (setKey l k v)) : k' = k ∨ k' ∈ keysOf l := by
  induction l with
  | nil => simpa [setKey, keysOf] using h
  | cons p rest ih =>
      obtain ⟨k0, v0⟩ := p
      by_cases hk : k0 = k
      · subst hk
        have hs : setKey ((k0, v0) :: rest) k0 v = (k0, v) :: rest := by simp [setKey]
        rw [hs] at h
        simp only [keysOf, List.map_cons, List.mem_cons] at h ⊢
        tauto
      · simp only [setKey, if_neg hk, keysOf, List.map_cons, List.mem_cons] at h ⊢
        rcases h with h | h
        · tauto
        · rcases ih h with h | h <;> tauto

/-- Every key of a successful filter-loop result comes from the
accumulator or is a filter key that is also a base-schema root key. -/
theorem filter_loop_keys_sub (base : List (String × TypeTree)) (doc : List (String × Value)) :
    ∀ (F : List String) (acc m : List (String × TypeTree)),
      filter_loop base doc F acc = .ok m →
      ∀ k, k ∈ keysOf m → k ∈ keysOf acc ∨ (k ∈ F ∧ k ∈ keysOf base) := by
  intro F
  induction F with
  | nil =>
      intro acc m h k hk
      simp only [filter_loop] at h
      cases h
      exact .inl hk
  | cons f ks ih =>
      intro acc m h k hk
      simp only [filter_loop] at h
      by_cases hd : hasKey doc f = true
      · rw [if_pos hd] at h
        cases hl : lookupKey base f with
        | none => rw [hl] at h; cases h
        | some tv =>
            rw [hl] at h
            rcases ih (setKey acc f tv) m h k hk with h1 | h2
            · rcases keysOf_setKey_cases h1 with h1 | h1
              · subst h1
                exact .inr ⟨by simp, lookupKey_mem_keysOf hl⟩
              · exact .inl h1
            · exact .inr ⟨by simp [h2.1], h2.2⟩
      · rw [if_neg hd] at h
        rcases ih acc m h k hk with h1 | h2
        · exact .inl h1
        · exact .inr ⟨by simp [h2.1], h2.2⟩

/-- The filter loop completes whenever every filter key that is present in
the live document is a base-schema root key. -/
theorem filter_loop_succeeds (base : List (String × TypeTree)) (doc : List (String × Value)) :
    ∀ (F : List String) (acc : List (String × TypeTree)),
      (∀ k, k ∈ F → hasKey doc k = true → k ∈ keysOf base) →
      exceptIsOk (filter_loop base doc F acc) = true := by
  intro F
  induction F with
  | nil => intro acc _; simp [filter_loop, exceptIsOk]
  | cons f ks ih =>
      intro acc h
      simp only [filter_loop]
      by_cases hd : hasKey doc f = true
      · obtain ⟨v, hv⟩ := mem_keysOf_exists_lookup (h f (by simp) hd)
        rw [if_pos hd, hv]
        exact ih _ (fun k hk hdk => h k (by simp [hk]) hdk)
      · rw [if_neg hd]
        exact ih _ (fun k hk hdk => h k (by simp [hk]) hdk)

/-! ## Claim theorems -/

/-- C1 (code bug evidence): `publish_dbstats` for database "admin" with the
document `{"collections": 7}` and no filter emits a record whose
`plugin_instance` is the bare port string "27017" — the `db=None`
rendering — because `recursive_submit` does not forward its `db` argument
into the recursive call, so the caller-supplied database qualifier never
reaches any leaf below the top level.  The claim says the record carries
sub-instance "admin". -/
theorem dbstats_record_loses_sub_instance :
    publish_dbstats 27017 none [("admin", .ok [("collections", .vInt 7)])] =
      .ok [ .dispatched ⟨"mongo", "27017", "gauge", some "collections", .vInt 7⟩ ] := rfl

/-- C2 (counterexample): with concrete successful server-status and dbstats
fetches and a failing connection-pool fetch, the cycle emits only step 1's
two records and lets the exception escape: step 3, which on its own would
emit the "collections" record, never runs — refuting the claim that a
failure in step 2 does not prevent step 3 from running. -/
theorem publish_data_step2_failure_aborts_step3 :
    publish_data_run 27017 SERVER_STATUS_METRICS none none none ["admin"]
        (.ok [("connections", .vDoc [("current", .vInt 3), ("available", .vInt 100)])])
        (.error .connectionError)
        [("admin", .ok [("collections", .vInt 7)])] =
      ( [ .dispatched ⟨"mongo", "27017", "gauge", some "connections.current", .vInt 3⟩
        , .dispatched ⟨"mongo", "27017", "gauge", some "connections.available", .vInt 100⟩ ]
      , some .connectionError) ∧
    publish_dbstats 27017 none [("admin", .ok [("collections", .vInt 7)])] =
      .ok [ .dispatched ⟨"mongo", "27017", "gauge", some "collections", .vInt 7⟩ ] ∧
    Event.dispatched ⟨"mongo", "27017", "gauge", some "collections", .vInt 7⟩ ∉
      [ Event.dispatched ⟨"mongo", "27017", "gauge", some "connections.current", .vInt 3⟩
      , Event.dispatched ⟨"mongo", "27017", "gauge", some "connections.available", .vInt 100⟩ ] :=
  ⟨rfl, rfl, by decide⟩

/-- C2 (amended): the orchestrator runs the three steps in the fixed order
server status, connection pool, dbstats, with no failure isolation: when
step 1 succeeds with records `evs` and step 2 raises `e`, the cycle's
output is exactly `evs` with the exception escaping, and step 3 never
contributes anything. -/
theorem publish_data_no_step_isolation (port : Nat) (base : List (String × TypeTree))
    (incSS incCP incDB : Option (List String)) (dbs : List String)
    (fSS fCP : Except PyErr (List (String × Value)))
    (fDBs : List (String × Except PyErr (List (String × Value))))
    (evs : List Event) (e : PyErr)
    (h1 : publish_server_status port base incSS dbs fSS = .ok evs)
    (h2 : publish_connection_pool_metrics port incCP fCP = .error e) :
    publish_data_run port base incSS incCP incDB dbs fSS fCP fDBs = (evs, some e) := by
  simp [publish_data_run, publish_data, h1, h2]

/-- C2 (witness for the amended theorem). -/
theorem publish_data_no_step_isolation_witness :
    publish_data_run 27017 SERVER_STATUS_METRICS none none none ["admin"]
        (.ok [("connections", .vDoc [("current", .vInt 3), ("available", .vInt 100)])])
        (.error .connectionError)
        [("admin", .ok [("collections", .vInt 7)])] =
      ( [ .dispatched ⟨"mongo", "27017", "gauge", some "connections.current", .vInt 3⟩
        , .dispatched ⟨"mongo", "27017", "gauge", some "connections.available", .vInt 100⟩ ]
      , some .connectionError) :=
  publish_data_no_step_isolation 27017 SERVER_STATUS_METRICS none none none ["admin"]
    (.ok [("connections", .vDoc [("current", .vInt 3), ("available", .vInt 100)])])
    (.error .connectionError)
    [("admin", .ok [("collections", .vInt 7)])] _ _ rfl rfl

/-- C3 (counterexample): a malformed version string does not fall back to
the legacy placement — `StrictVersion` parsing raises (`ValueError`), and a
missing version key raises (`KeyError`), refuting "with no exception
raised". -/
theorem connect_malformed_version_raises :
    connect_version_sub SERVER_STATUS_METRICS [("version", .vStr "2.4-dev")] =
      .error .valueError ∧
    connect_version_sub SERVER_STATUS_METRICS [] = .error .keyError := ⟨rfl, rfl⟩

/-- C3 (amended): version conditioning nests the index-counter sub-tree
under "btree" for version "2.3.9", leaves the schema untouched for
"2.4.0" and "2.4.1" (where `indexCounters` stays a top-level flat branch),
and raises — `ValueError` on a malformed version string, `KeyError` on a
missing one — instead of falling back to the legacy placement. -/
theorem connect_version_conditioning :
    connect_version_sub SERVER_STATUS_METRICS [("version", .vStr "2.3.9")] =
      .ok SERVER_STATUS_METRICS_pre24 ∧
    lookupKey SERVER_STATUS_METRICS_pre24 "indexCounters" =
      some (.branch [("btree", indexCountersMap)]) ∧
    connect_version_sub SERVER_STATUS_METRICS [("version", .vStr "2.4.0")] =
      .ok SERVER_STATUS_METRICS ∧
    connect_version_sub SERVER_STATUS_METRICS [("version", .vStr "2.4.1")] =
      .ok SERVER_STATUS_METRICS ∧
    lookupKey SERVER_STATUS_METRICS "indexCounters" = some indexCountersMap ∧
    connect_version_sub SERVER_STATUS_METRICS [("version", .vStr "2.4-dev")] =
      .error .valueError ∧
    connect_version_sub SERVER_STATUS_METRICS [] = .error .keyError :=
  ⟨rfl, rfl, rfl, rfl, rfl, rfl, rfl⟩

/-- C4 (counterexample): version conditioning does mutate the shared base
schema: resolving with the below-threshold version "2.3.9" leaves the
global `SERVER_STATUS_METRICS` changed (its index-counter sub-tree
re-nested), so the base tree is not identical before and after. -/
theorem version_sub_mutates_base :
    connect_version_sub SERVER_STATUS_METRICS [("version", .vStr "2.3.9")] =
      .ok SERVER_STATUS_METRICS_pre24 ∧
    SERVER_STATUS_METRICS_pre24 ≠ SERVER_STATUS_METRICS := ⟨rfl, by decide⟩

/-- C4 (amended): the version-conditional substitution mutates the shared
base schema in place — after it the base differs as a tree (the
index-counter sub-tree is nested one level deeper) although its root key
set is preserved — and running it a second time nests the sub-tree a
second time, two levels deep. -/
theorem version_sub_base_mutation_profile :
    connect_version_sub SERVER_STATUS_METRICS [("version", .vStr "2.3.9")] =
      .ok SERVER_STATUS_METRICS_pre24 ∧
    SERVER_STATUS_METRICS_pre24 ≠ SERVER_STATUS_METRICS ∧
    (keysOf SERVER_STATUS_METRICS_pre24).Perm (keysOf SERVER_STATUS_METRICS) ∧
    Except.map (fun g => lookupKey g "indexCounters")
        (connect_version_sub SERVER_STATUS_METRICS_pre24 [("version", .vStr "2.3.9")]) =
      .ok (some (.branch [("btree", .branch [("btree", indexCountersMap)])])) :=
  ⟨rfl, by decide, by decide, rfl⟩

/-- C5: the root key set of the resolved effective schema equals the base
schema's root keys when no filter (or an empty filter) is configured, and
with a non-empty filter `F` every root key of the result lies in `F` and
among the base schema's root keys (so it lies in their intersection). -/
theorem resolve_rootkeys_subset (base : List (String × TypeTree))
    (doc : List (String × Value)) (F : List String) (m : List (String × TypeTree)) :
    metrics_to_collect none base doc = .ok base ∧
    metrics_to_collect (some []) base doc = .ok base ∧
    (F ≠ [] → metrics_to_collect (some F) base doc = .ok m →
      ∀ k, k ∈ keysOf m → k ∈ F ∧ k ∈ keysOf base) := by
  refine ⟨rfl, rfl, ?_⟩
  intro hF h k hk
  simp only [metrics_to_collect, if_neg hF] at h
  rcases filter_loop_keys_sub base doc F [] m h k hk with h1 | h2
  · simp [keysOf] at h1
  · exact h2

/-- C5 (witness). -/
theorem resolve_rootkeys_subset_witness :
    "totalAvailable" ∈ ["totalAvailable"] ∧
    "totalAvailable" ∈ keysOf CONNECTION_POOL_STATUS_METRICS :=
  (resolve_rootkeys_subset CONNECTION_POOL_STATUS_METRICS
      [("totalAvailable", .vInt 1)] ["totalAvailable"]
      [("totalAvailable", .leaf "gauge")]).2.2
    (by decide) rfl "totalAvailable" (by decide)

/-- C6 (counterexample): an unknown filter key is not always silently
ignored — when the unknown key is present in the live response document,
the unguarded `base[root_metric_key]` subscript raises `KeyError`. -/
theorem unknown_filter_key_in_doc_raises :
    metrics_to_collect (some ["bogus"]) CONNECTION_POOL_STATUS_METRICS
      [("bogus", .vInt 1)] = .error .keyError := rfl

/-- C6 (amended): a filter key that is not a root branch of the base
schema is silently ignored, and contributes no branch to the effective
schema, provided it is also absent from the live response document; with
every unknown filter key absent from the document, resolution completes
without raising. -/
theorem unknown_filter_key_tolerated_when_absent (base : List (String × TypeTree))
    (doc : List (String × Value)) (F : List String) (hF : F ≠ [])
    (h : ∀ k, k ∈ F → k ∈ keysOf base ∨ hasKey doc k = false) :
    exceptIsOk (metrics_to_collect (some F) base doc) = true ∧
    ∀ m k, metrics_to_collect (some F) base doc = .ok m → k ∈ F →
      k ∉ keysOf base → k ∉ keysOf m := by
  constructor
  · simp only [metrics_to_collect, if_neg hF]
    apply filter_loop_succeeds
    intro k hk hdk
    rcases h k hk with h1 | h2
    · exact h1
    · rw [h2] at hdk; cases hdk
  · intro m k hm hkF hkb hkm
    simp only [metrics_to_collect, if_neg hF] at hm
    rcases filter_loop_keys_sub base doc F [] m hm k hkm with h1 | h2
    · simp [keysOf] at h1
    · exact hkb h2.2

/-- C6 (witness for the amended theorem). -/
theorem unknown_filter_key_tolerated_when_absent_witness :
    exceptIsOk (metrics_to_collect (some ["totalAvailable", "bogus"])
      CONNECTION_POOL_STATUS_METRICS [("totalAvailable", .vInt 1)]) = true ∧
    "bogus" ∉ keysOf [("totalAvailable", TypeTree.leaf "gauge")] := by
  have h := unknown_filter_key_tolerated_when_absent CONNECTION_POOL_STATUS_METRICS
    [("totalAvailable", .vInt 1)] ["totalAvailable", "bogus"] (by decide)
    (by intro k hk; fin_cases hk <;> simp [keysOf, hasKey, lookupKey, CONNECTION_POOL_STATUS_METRICS])
  exact ⟨h.1, h.2 [("totalAvailable", .leaf "gauge")] "bogus" rfl (by decide) (by decide)⟩

/-- A branch schema node against a scalar integer is a shape mismatch:
with a truthy instance name the diagnostic is printed and nothing is
emitted for the subtree. -/
theorem recursive_submit_branch_int (port : Nat) (ch : List (String × TypeTree)) (n : Int)
    (s : String) (db : Option String) :
    recursive_submit port (.branch ch) (.vInt n) (some s) db =
      .ok [.diag (mismatch_msg s)] := rfl

/-- A branch schema node against a scalar string is likewise a shape
mismatch. -/
theorem recursive_submit_branch_str (port : Nat) (ch : List (String × TypeTree)) (w : String)
    (s : String) (db : Option String) :
    recursive_submit port (.branch ch) (.vStr w) (some s) db =
      .ok [.diag (mismatch_msg s)] := rfl

/-- C7: resolving the server-status schema with target databases
["admin","logs"] and no filter yields a lock-statistics branch whose keys
are exactly {"GLOBAL","admin","logs"}, each database key bound to a copy
of the placeholder's original sub-tree (which is the sub-tree the base
schema holds under the "." placeholder), and the placeholder key "."
appears nowhere in the effective schema. -/
theorem per_db_lock_injection :
    Except.map locksBranchOf
        (resolve_server_status SERVER_STATUS_METRICS none [] ["admin", "logs"]) =
      .ok (some [ ("GLOBAL", lock_placeholder_subtree)
                , ("admin", lock_placeholder_subtree)
                , ("logs", lock_placeholder_subtree) ]) ∧
    keysOf [ ("GLOBAL", lock_placeholder_subtree)
           , ("admin", lock_placeholder_subtree)
           , ("logs", lock_placeholder_subtree) ] = ["GLOBAL", "admin", "logs"] ∧
    Except.map (TypeTree.hasKeyDeepList ".")
        (resolve_server_status SERVER_STATUS_METRICS none [] ["admin", "logs"]) =
      .ok false ∧
    lookupKey SERVER_STATUS_METRICS "locks" =
      some (.branch [(".", lock_placeholder_subtree)]) :=
  ⟨rfl, rfl, rfl, rfl⟩

/-- C8: matching the schema `{a: {b: leaf}, c: leaf}` against the document
`{a: "not-a-map", c: 5}` emits exactly one record — for path "c" with
value 5 — plus the mismatch diagnostic for "a", with no exception; and in
general, a branch-versus-scalar mismatch at one child of a schema
dictionary contributes only its diagnostic and leaves the processing of
the sibling children unchanged. -/
theorem shape_mismatch_containment :
    recursive_submit 27017 (.branch [("a", .branch [("b", .leaf "gauge")]), ("c", .leaf "gauge")])
        (.vDoc [("a", .vStr "not-a-map"), ("c", .vInt 5)]) none none =
      .ok [ .diag (mismatch_msg "a")
          , .dispatched ⟨"mongo", "27017", "gauge", some "c", .vInt 5⟩ ] ∧
    ∀ (port : Nat) (k : String) (tv : TypeTree) (rest : List (String × TypeTree))
      (d : List (String × Value)) (inst : Option String) (w : Value) (l : List Event),
      lookupKey d k = some w → Value.isDocB w = false → TypeTree.isBranchB tv = true →
      recursive_submit_items port rest d inst = .ok l →
      recursive_submit_items port ((k, tv) :: rest) d inst =
        .ok (.diag (mismatch_msg (next_instance_name inst k)) :: l) := by
  constructor
  · rfl
  · intro port k tv rest d inst w l hl hw htv hrest
    cases tv with
    | leaf ty => simp [TypeTree.isBranchB] at htv
    | branch ch =>
        cases w with
        | vDoc fields => simp [Value.isDocB] at hw
        | vInt n =>
            rw [recursive_submit_items, hl]
            dsimp only
            rw [recursive_submit_branch_int, hrest]
            rfl
        | vStr s =>
            rw [recursive_submit_items, hl]
            dsimp only
            rw [recursive_submit_branch_str, hrest]
            rfl

/-- C8 (witness for the general part). -/
theorem shape_mismatch_containment_witness :
    recursive_submit_items 27017
        [("a", .branch [("b", .leaf "gauge")]), ("c", .leaf "gauge")]
        [("a", .vStr "not-a-map"), ("c", .vInt 5)] none =
      .ok [ .diag (mismatch_msg "a")
          , .dispatched ⟨"mongo", "27017", "gauge", some "c", .vInt 5⟩ ] :=
  shape_mismatch_containment.2 27017 "a" (.branch [("b", .leaf "gauge")])
    [("c", .leaf "gauge")] [("a", .vStr "not-a-map"), ("c", .vInt 5)] none
    (.vStr "not-a-map")
    [.dispatched ⟨"mongo", "27017", "gauge", some "c", .vInt 5⟩]
    rfl rfl rfl rfl

/-- C9: end to end with the base server-status schema, a "2.2.0" server
(so `connect` re-nested `indexCounters`, yielding
`SERVER_STATUS_METRICS_pre24` as the schema in force), no filter, target
database list ["admin"], and the document
`{"connections":{"current":3,"available":100}}`: the run emits exactly the
two gauge records "connections.current" = 3 and "connections.available" =
100, named by the dot-joined path from the schema root, with every schema
branch absent from the document skipped silently. -/
theorem server_status_end_to_end :
    connect_version_sub SERVER_STATUS_METRICS [("version", .vStr "2.2.0")] =
      .ok SERVER_STATUS_METRICS_pre24 ∧
    publish_server_status 27017 SERVER_STATUS_METRICS_pre24 none ["admin"]
        (.ok [("connections", .vDoc [("current", .vInt 3), ("available", .vInt 100)])]) =
      .ok [ .dispatched ⟨"mongo", "27017", "gauge", some "connections.current", .vInt 3⟩
          , .dispatched ⟨"mongo", "27017", "gauge", some "connections.available", .vInt 100⟩ ] :=
  ⟨rfl, rfl⟩

/-- C10: `MongoDB.submit` with a truthy (non-None, non-empty) string `db`
raises `TypeError` while formatting `"%s-%d" % (port, db)` and dispatches
nothing; with `db=None` it dispatches one value whose `plugin_instance` is
the port rendered as a string. -/
theorem submit_db_type_error (port : Nat) (inst : Option String) (ty : String)
    (v : Value) (db : Option String) (hdb : ∀ s, db = some s → s ≠ "") :
    (∀ s, db = some s → MongoDB.submit port inst ty v db = .error .typeError) ∧
    (db = none → MongoDB.submit port inst ty v db =
      .ok ⟨"mongo", toString port, ty, inst, v⟩) := by
  constructor
  · intro s hs
    subst hs
    simp [MongoDB.submit, pyTruthy, hdb s rfl]
  · intro h
    subst h
    rfl

/-- C10 (witness). -/
theorem submit_db_type_error_witness :
    MongoDB.submit 27017 (some "collections") "gauge" (.vInt 7) (some "admin") =
      .error .typeError :=
  (submit_db_type_error 27017 (some "collections") "gauge" (.vInt 7) (some "admin")
    (by intro s hs; cases hs; decide)).1 "admin" rfl

end MongoDBPlugin
